import Mathlib

/-!
Verification of the Chinese Wall access-control engine from `src/LR2/task2.cpp`
(class `ChineseWall`).

Shallow embedding conventions:
- `size_t` counts and indices become `Nat`.
- `accessMatrix : vector<vector<bool>>` becomes a total function
  `Nat → Nat → Bool`; entries outside `[0,subjects) × [0,objects)` are never
  read by the C++ code on the paths the claims concern.
- `objectOwners : vector<int>` becomes `Nat → Nat` (the C++ only ever stores
  validated firm ids, default-initialized to 0 by `resize`).
- `conflictClasses : vector<set<int>>` becomes `Nat → Nat → Bool`, where
  `conflictClasses f i = true` embeds `conflictClasses[f].count(i) != 0`.
- A decision procedure returns its C++ `bool` result, a flag recording
  whether the `std::cerr` diagnostic was emitted (the out-of-range branch),
  and the post-state: mutation of the object becomes explicit state passing.
-/

namespace ChineseWall

/-- The fields of the C++ class `ChineseWall`. -/
structure Wall where
  subjects : Nat
  objects : Nat
  firms : Nat
  accessMatrix : Nat → Nat → Bool
  objectOwners : Nat → Nat
  conflictClasses : Nat → Nat → Bool

/-- The constructor `ChineseWall(n, m, f)`: no accesses, owners
default-initialized to 0, all conflict sets empty. -/
def Wall.init (n m f : Nat) : Wall :=
  { subjects := n
    objects := m
    firms := f
    accessMatrix := fun _ _ => false
    objectOwners := fun _ => 0
    conflictClasses := fun _ _ => false }

/-- `accessMatrix[subject][object] = true`. -/
def setAccess (a : Nat → Nat → Bool) (subject object : Nat) : Nat → Nat → Bool :=
  fun s o => if s = subject ∧ o = object then true else a s o

/-- `conflictClasses[firm1].insert(firm2)`. -/
def insertConflict (c : Nat → Nat → Bool) (firm1 firm2 : Nat) : Nat → Nat → Bool :=
  fun f i => if f = firm1 ∧ i = firm2 then true else c f i

/-- Result of a decision procedure: the returned `bool` (`ok`), whether the
out-of-range diagnostic was printed to `std::cerr` (`diag`), and the state of
the object after the call (`st`). -/
structure Decision where
  ok : Bool
  diag : Bool
  st : Wall

/-- `ChineseWall::start()`: clear every row of the access matrix. -/
def start (w : Wall) : Wall :=
  { w with accessMatrix := fun _ _ => false }

/-- `AccessHistory.grant`: the single mutation the decision procedures make,
`accessMatrix[subject][object] = true` on acceptance. -/
def grant (w : Wall) (subject object : Nat) : Wall :=
  { w with accessMatrix := setAccess w.accessMatrix subject object }

/-- The scan loop in `ChineseWall::read`: `true` iff some subject
`i < subjects` has `accessMatrix[i][object] && conflictClasses[owner].count(i)`
(the loop returns `false`, i.e. refuses, as soon as such an `i` is found). -/
def readScan (w : Wall) (object owner : Nat) : Bool :=
  (List.range w.subjects).any fun i => w.accessMatrix i object && w.conflictClasses owner i

/-- `ChineseWall::read(subject, object)`. -/
def read (w : Wall) (subject object : Nat) : Decision :=
  if w.subjects ≤ subject ∨ w.objects ≤ object then
    ⟨false, true, w⟩
  else
    let objectOwner := w.objectOwners object
    if readScan w object objectOwner then
      ⟨false, false, w⟩
    else
      ⟨true, false, grant w subject object⟩

/-- The scan loop in `ChineseWall::write`: `true` iff some object
`i < objects` has `accessMatrix[subject][i]`, `objectOwners[i] != owner`, and
`conflictClasses[owner].count(objectOwners[i])`. -/
def writeScan (w : Wall) (subject owner : Nat) : Bool :=
  (List.range w.objects).any fun i =>
    w.accessMatrix subject i && !(w.objectOwners i == owner)
      && w.conflictClasses owner (w.objectOwners i)

/-- `ChineseWall::write(subject, object)`. -/
def write (w : Wall) (subject object : Nat) : Decision :=
  if w.subjects ≤ subject ∨ w.objects ≤ object then
    ⟨false, true, w⟩
  else
    let r := read w subject object
    if !r.ok then
      ⟨false, r.diag, r.st⟩
    else
      let w1 := r.st
      let objectOwner := w1.objectOwners object
      if writeScan w1 subject objectOwner then
        ⟨false, false, w1⟩
      else
        ⟨true, false, grant w1 subject object⟩

/-- `ChineseWall::setObjectOwner(object, firm)`: the `Bool` records whether
the `std::cerr` diagnostic was printed (the out-of-range no-op branch). -/
def setObjectOwner (w : Wall) (object firm : Nat) : Bool × Wall :=
  if w.objects ≤ object ∨ w.firms ≤ firm then
    (true, w)
  else
    (false, { w with objectOwners := fun o => if o = object then firm else w.objectOwners o })

/-- `ChineseWall::addConflictClass(firm1, firm2)`: the `Bool` records whether
the `std::cerr` diagnostic was printed (the out-of-range no-op branch). -/
def addConflictClass (w : Wall) (firm1 firm2 : Nat) : Bool × Wall :=
  if w.firms ≤ firm1 ∨ w.firms ≤ firm2 then
    (true, w)
  else
    (false, { w with conflictClasses := insertConflict (insertConflict w.conflictClasses firm1 firm2) firm2 firm1 })

/-! Concrete setups used as counterexamples and witnesses. -/

/-- One subject, one object, one firm; subject 0 has read object 0. -/
def wallSoloFirm : Wall := (read (Wall.init 1 1 1) 0 0).st

/-- `wallSoloFirm` after `addConflictClass(0, 0)`: firm 0 registered as in
conflict with itself. -/
def wallSelfConflict : Wall := (addConflictClass wallSoloFirm 0 0).2

/-- One subject, two objects, two firms; owner(1) = 1 and the conflict pair
(0,1) registered. -/
def wallPair : Wall :=
  (addConflictClass ((setObjectOwner (Wall.init 1 2 2) 1 1).2) 0 1).2

/-- Scenario 1 setup: two subjects, two objects owned by firm 0 and firm 1,
the single conflict pair (0,1) registered, fresh history. -/
def wallScenario1 : Wall :=
  (addConflictClass ((setObjectOwner ((setObjectOwner (Wall.init 2 2 2) 0 0).2) 1 1).2) 0 1).2

/-! Helper lemmas about the embedded operations. -/

theorem setAccess_idem (a : Nat → Nat → Bool) (s o : Nat) :
    setAccess (setAccess a s o) s o = setAccess a s o := by
  funext s' o'
  simp only [setAccess]
  split <;> rfl

theorem setAccess_monotone (a : Nat → Nat → Bool) (s o s' o' : Nat)
    (h : a s' o' = true) : setAccess a s o s' o' = true := by
  simp only [setAccess]
  split <;> simp [h]

theorem grant_idem (w : Wall) (s o : Nat) : grant (grant w s o) s o = grant w s o :=
  congrArg (fun m => { w with accessMatrix := m }) (setAccess_idem w.accessMatrix s o)

theorem readScan_iff (w : Wall) (o f : Nat) :
    readScan w o f = true ↔
      ∃ i, i < w.subjects ∧ w.accessMatrix i o = true ∧ w.conflictClasses f i = true := by
  simp [readScan, List.any_eq_true, List.mem_range, Bool.and_eq_true]

theorem writeScan_iff (w : Wall) (s f : Nat) :
    writeScan w s f = true ↔
      ∃ i, i < w.objects ∧ w.accessMatrix s i = true ∧ w.objectOwners i ≠ f ∧
        w.conflictClasses f (w.objectOwners i) = true := by
  simp [writeScan, List.any_eq_true, List.mem_range, Bool.and_eq_true,
    Bool.not_eq_eq_eq_not, Bool.not_true, beq_eq_false_iff_ne, and_assoc]

theorem read_out_of_range (w : Wall) (s o : Nat) (h : w.subjects ≤ s ∨ w.objects ≤ o) :
    read w s o = ⟨false, true, w⟩ := by
  simp [read, h]

theorem read_in_range (w : Wall) (s o : Nat) (hs : s < w.subjects) (ho : o < w.objects) :
    read w s o =
      if readScan w o (w.objectOwners o) then ⟨false, false, w⟩
      else ⟨true, false, grant w s o⟩ := by
  have h : ¬(w.subjects ≤ s ∨ w.objects ≤ o) := by omega
  simp only [read, h, if_false]

theorem read_refused_st (w : Wall) (s o : Nat) (h : (read w s o).ok = false) :
    (read w s o).st = w := by
  by_cases hr : w.subjects ≤ s ∨ w.objects ≤ o
  · rw [read_out_of_range w s o hr]
  · push_neg at hr
    rw [read_in_range w s o hr.1 hr.2] at h ⊢
    split at h
    · simp_all
    · simp_all

theorem read_ok_st (w : Wall) (s o : Nat) (h : (read w s o).ok = true) :
    (read w s o).st = grant w s o := by
  by_cases hr : w.subjects ≤ s ∨ w.objects ≤ o
  · rw [read_out_of_range w s o hr] at h
    simp at h
  · push_neg at hr
    rw [read_in_range w s o hr.1 hr.2] at h ⊢
    split at h
    · simp at h
    · simp_all

theorem read_diag_in_range (w : Wall) (s o : Nat) (hs : s < w.subjects)
    (ho : o < w.objects) : (read w s o).diag = false := by
  rw [read_in_range w s o hs ho]
  split <;> rfl

theorem write_out_of_range (w : Wall) (s o : Nat) (h : w.subjects ≤ s ∨ w.objects ≤ o) :
    write w s o = ⟨false, true, w⟩ := by
  simp [write, h]

theorem writeScan_grant (w : Wall) (s o : Nat) :
    writeScan (grant w s o) s (w.objectOwners o) = writeScan w s (w.objectOwners o) := by
  unfold writeScan grant
  congr 1
  funext i
  by_cases hi : i = o
  · subst hi
    simp [setAccess]
  · simp [setAccess, hi]

theorem write_in_range_read_refused (w : Wall) (s o : Nat) (hs : s < w.subjects)
    (ho : o < w.objects) (h : (read w s o).ok = false) :
    write w s o = ⟨false, false, w⟩ := by
  have hr : ¬(w.subjects ≤ s ∨ w.objects ≤ o) := by omega
  have hd := read_diag_in_range w s o hs ho
  have hst := read_refused_st w s o h
  simp only [write, hr, if_false, h, Bool.not_false, if_true, hd, hst]

theorem write_in_range_read_ok (w : Wall) (s o : Nat) (hs : s < w.subjects)
    (ho : o < w.objects) (h : (read w s o).ok = true) :
    write w s o =
      if writeScan w s (w.objectOwners o) then ⟨false, false, grant w s o⟩
      else ⟨true, false, grant w s o⟩ := by
  have hr : ¬(w.subjects ≤ s ∨ w.objects ≤ o) := by omega
  have hst := read_ok_st w s o h
  simp only [write, hr, if_false, h, Bool.not_true, Bool.false_eq_true, if_false, hst]
  have howner : (grant w s o).objectOwners = w.objectOwners := rfl
  rw [howner, writeScan_grant w s o]
  split
  · rfl
  · rw [grant_idem]

theorem read_st_total (w : Wall) (s o : Nat) :
    (read w s o).st = w ∨ (read w s o).st = grant w s o := by
  cases hok : (read w s o).ok
  · exact Or.inl (read_refused_st w s o hok)
  · exact Or.inr (read_ok_st w s o hok)

theorem write_st_cases (w : Wall) (s o : Nat) :
    ((write w s o).ok = false → (write w s o).st = w ∨ (write w s o).st = grant w s o) ∧
    ((write w s o).ok = true → (write w s o).st = grant w s o) := by
  by_cases hr : w.subjects ≤ s ∨ w.objects ≤ o
  · rw [write_out_of_range w s o hr]
    exact ⟨fun _ => Or.inl rfl, fun h => by simp at h⟩
  · push_neg at hr
    by_cases hok : (read w s o).ok = true
    · rw [write_in_range_read_ok w s o hr.1 hr.2 hok]
      split
      · exact ⟨fun _ => Or.inr rfl, fun h => by simp at h⟩
      · exact ⟨fun h => by simp at h, fun _ => rfl⟩
    · have hok' : (read w s o).ok = false := by
        cases hh : (read w s o).ok
        · rfl
        · exact absurd hh hok
      rw [write_in_range_read_refused w s o hr.1 hr.2 hok']
      exact ⟨fun _ => Or.inl rfl, fun h => by simp at h⟩

theorem write_st_total (w : Wall) (s o : Nat) :
    (write w s o).st = w ∨ (write w s o).st = grant w s o := by
  cases hok : (write w s o).ok
  · exact (write_st_cases w s o).1 hok
  · exact Or.inr ((write_st_cases w s o).2 hok)

theorem setObjectOwner_access (w : Wall) (object firm : Nat) :
    (setObjectOwner w object firm).2.accessMatrix = w.accessMatrix := by
  unfold setObjectOwner
  split <;> rfl

theorem addConflictClass_access (w : Wall) (firm1 firm2 : Nat) :
    (addConflictClass w firm1 firm2).2.accessMatrix = w.accessMatrix := by
  unfold addConflictClass
  split <;> rfl

/-- The single-step transition relation generated by the four mutating
operations other than `start`, each with arbitrary arguments. -/
inductive Step : Wall → Wall → Prop where
  | ofRead (w : Wall) (s o : Nat) : Step w (read w s o).st
  | ofWrite (w : Wall) (s o : Nat) : Step w (write w s o).st
  | ofSetOwner (w : Wall) (object firm : Nat) : Step w (setObjectOwner w object firm).2
  | ofAddConflict (w : Wall) (firm1 firm2 : Nat) : Step w (addConflictClass w firm1 firm2).2

theorem step_access_monotone (w w' : Wall) (h : Step w w') (s o : Nat)
    (hg : w.accessMatrix s o = true) : w'.accessMatrix s o = true := by
  cases h with
  | ofRead s' o' =>
    rcases read_st_total w s' o' with hst | hst <;> rw [hst]
    · exact hg
    · exact setAccess_monotone w.accessMatrix s' o' s o hg
  | ofWrite s' o' =>
    rcases write_st_total w s' o' with hst | hst <;> rw [hst]
    · exact hg
    · exact setAccess_monotone w.accessMatrix s' o' s o hg
  | ofSetOwner object firm =>
    rw [setObjectOwner_access w object firm]
    exact hg
  | ofAddConflict firm1 firm2 =>
    rw [addConflictClass_access w firm1 firm2]
    exact hg

theorem insertConflict_self_mem (c : Nat → Nat → Bool) (A f i : Nat) :
    insertConflict (insertConflict c A A) A A f i = true ↔
      (c f i = true ∨ (f = A ∧ i = A)) := by
  simp only [insertConflict]
  split
  · rename_i h
    simp [h]
  · rename_i h
    constructor
    · exact Or.inl
    · rintro (hc | hfa)
      · exact hc
      · exact absurd hfa h

theorem writeScan_insert_self (w : Wall) (A s f : Nat) :
    writeScan { w with conflictClasses := insertConflict (insertConflict w.conflictClasses A A) A A } s f
      = writeScan w s f := by
  unfold writeScan
  congr 1
  funext i
  dsimp only
  simp only [insertConflict]
  split
  · rename_i h
    obtain ⟨h1a, h1b⟩ := h
    subst h1a
    simp [h1b]
  · rfl

/-! Claim theorems. -/

/-- Claim C1: the Chinese Wall safety invariant is claimed to hold after every
sequence of accepted operations, but the code violates it: from `wallPair`
(one subject, objects 0 and 1 owned by the conflicting firms 0 and 1), the
reads `read(0,0)` and `read(0,1)` are both accepted, after which subject 0
holds accesses to two objects of distinct, conflicting owners. -/
theorem read_breaks_safety_invariant :
    (read wallPair 0 0).ok = true ∧
    (read (read wallPair 0 0).st 0 1).ok = true ∧
    (read (read wallPair 0 0).st 0 1).st.accessMatrix 0 0 = true ∧
    (read (read wallPair 0 0).st 0 1).st.accessMatrix 0 1 = true ∧
    (read (read wallPair 0 0).st 0 1).st.objectOwners 0 ≠
      (read (read wallPair 0 0).st 0 1).st.objectOwners 1 ∧
    (read (read wallPair 0 0).st 0 1).st.conflictClasses
      ((read (read wallPair 0 0).st 0 1).st.objectOwners 0)
      ((read (read wallPair 0 0).st 0 1).st.objectOwners 1) = true := by
  decide

/-- Claim C5 counterexample: in the Scenario 1 setup, the second call
`read(0,1)` is accepted by the code, not refused as the claim states (the
scan only inspects prior accesses to object 1 itself, and there are none). -/
theorem scenario1_second_read_refusal_fails :
    (read (read wallScenario1 0 0).st 0 1).ok = true := by
  decide

/-- Claim C5 (amended): from the Scenario 1 setup the sequence `read(0,0)`,
`read(0,1)`, `read(1,1)` yields accepted, accepted, refused. -/
theorem scenario1_actual_outcomes :
    (read wallScenario1 0 0).ok = true ∧
    (read (read wallScenario1 0 0).st 0 1).ok = true ∧
    (read (read (read wallScenario1 0 0).st 0 1).st 1 1).ok = false := by
  decide

/-- Claim C2 counterexample: in `wallSelfConflict` (a single subject, so no
subject `i != 0` exists at all) the code refuses `read(0,0)`, because the
scan does not exclude `i = subject`: subject 0's own earlier access to
object 0 trips the check once firm 0 conflicts with itself. -/
theorem read_rule_self_exclusion_fails :
    (read wallSelfConflict 0 0).ok = false ∧
    0 < wallSelfConflict.subjects ∧ 0 < wallSelfConflict.objects ∧
    ∀ i, i < wallSelfConflict.subjects → i ≠ 0 →
      ¬(wallSelfConflict.accessMatrix i 0 = true ∧
        wallSelfConflict.conflictClasses (wallSelfConflict.objectOwners 0) i = true) := by
  decide

/-- Claim C2 (amended): for in-range `s`, `o`, `read(s,o)` is refused iff
some subject `i` — including `s` itself — has `granted(i,o)` true and `i` in
the conflict set indexed by `owner(o)`; acceptance grants exactly `(s,o)` and
a refusal makes no history mutation. -/
theorem read_decision_rule (w : Wall) (s o : Nat) (hs : s < w.subjects)
    (ho : o < w.objects) :
    ((read w s o).ok = false ↔
      ∃ i, i < w.subjects ∧ w.accessMatrix i o = true ∧
        w.conflictClasses (w.objectOwners o) i = true) ∧
    ((read w s o).ok = true → (read w s o).st = grant w s o) ∧
    ((read w s o).ok = false → (read w s o).st = w) := by
  refine ⟨?_, read_ok_st w s o, read_refused_st w s o⟩
  rw [read_in_range w s o hs ho, ← readScan_iff]
  split <;> simp_all

/-- Witness for C2 (amended), at the fresh wall with 2 subjects, 2 objects
and 2 firms, `s = 0`, `o = 0`. -/
theorem read_decision_rule_witness :
    ((read (Wall.init 2 2 2) 0 0).ok = false ↔
      ∃ i, i < (Wall.init 2 2 2).subjects ∧
        (Wall.init 2 2 2).accessMatrix i 0 = true ∧
        (Wall.init 2 2 2).conflictClasses ((Wall.init 2 2 2).objectOwners 0) i = true) ∧
    ((read (Wall.init 2 2 2) 0 0).ok = true →
      (read (Wall.init 2 2 2) 0 0).st = grant (Wall.init 2 2 2) 0 0) ∧
    ((read (Wall.init 2 2 2) 0 0).ok = false →
      (read (Wall.init 2 2 2) 0 0).st = Wall.init 2 2 2) :=
  read_decision_rule (Wall.init 2 2 2) 0 0 (by decide) (by decide)

/-- Claim C3 counterexample: from `wallPair` after an accepted `read(0,0)`,
the call `write(0,1)` is refused by the taint scan, yet the access history is
not what it was before the call: the inner successful `read` has granted
`(0,1)`. -/
theorem write_taint_refusal_mutates :
    (read wallPair 0 0).ok = true ∧
    (write (read wallPair 0 0).st 0 1).ok = false ∧
    (write (read wallPair 0 0).st 0 1).diag = false ∧
    (read wallPair 0 0).st.accessMatrix 0 1 = false ∧
    (write (read wallPair 0 0).st 0 1).st.accessMatrix 0 1 = true := by
  decide

/-- Claim C3 (amended): a refused `read` leaves the state exactly unchanged
and an accepted `read` changes it only by granting `(s,o)`; a `write`
rejected for an out-of-range argument leaves the state exactly unchanged, as
does an in-range `write` refused by its inner `read`; but an in-range
`write` whose inner `read` succeeds and which is then refused by the taint
scan retains exactly the inner read's grant of `(s,o)`, and an accepted
`write` changes the state only by granting `(s,o)`. -/
theorem rejection_state_effects (w : Wall) (s o : Nat) :
    ((read w s o).ok = false → (read w s o).st = w) ∧
    ((read w s o).ok = true → (read w s o).st = grant w s o) ∧
    (w.subjects ≤ s ∨ w.objects ≤ o → (write w s o).st = w) ∧
    (s < w.subjects → o < w.objects → (read w s o).ok = false →
      (write w s o).st = w) ∧
    (s < w.subjects → o < w.objects → (read w s o).ok = true →
      (write w s o).ok = false → (write w s o).st = grant w s o) ∧
    ((write w s o).ok = true → (write w s o).st = grant w s o) := by
  refine ⟨read_refused_st w s o, read_ok_st w s o, ?_, ?_, ?_, (write_st_cases w s o).2⟩
  · intro h
    rw [write_out_of_range w s o h]
  · intro hs ho h
    rw [write_in_range_read_refused w s o hs ho h]
  · intro hs ho h _
    rw [write_in_range_read_ok w s o hs ho h]
    split <;> rfl

/-- Witness for C3 (amended), at the state after an accepted `read(0,0)` on
`wallPair`, with `s = 0`, `o = 1`: an in-range pair whose write is refused
by the taint scan after an accepted inner read, so the taint-refusal
conjunct's hypotheses are all discharged concretely. -/
theorem rejection_state_effects_witness :
    (0 < (read wallPair 0 0).st.subjects ∧ 1 < (read wallPair 0 0).st.objects ∧
      (read (read wallPair 0 0).st 0 1).ok = true ∧
      (write (read wallPair 0 0).st 0 1).ok = false ∧
      (write (read wallPair 0 0).st 0 1).st = grant (read wallPair 0 0).st 0 1) ∧
    ((read (read wallPair 0 0).st 0 1).ok = false →
      (read (read wallPair 0 0).st 0 1).st = (read wallPair 0 0).st) ∧
    ((read (read wallPair 0 0).st 0 1).ok = true →
      (read (read wallPair 0 0).st 0 1).st = grant (read wallPair 0 0).st 0 1) ∧
    ((read wallPair 0 0).st.subjects ≤ 0 ∨ (read wallPair 0 0).st.objects ≤ 1 →
      (write (read wallPair 0 0).st 0 1).st = (read wallPair 0 0).st) ∧
    (0 < (read wallPair 0 0).st.subjects → 1 < (read wallPair 0 0).st.objects →
      (read (read wallPair 0 0).st 0 1).ok = false →
      (write (read wallPair 0 0).st 0 1).st = (read wallPair 0 0).st) ∧
    (0 < (read wallPair 0 0).st.subjects → 1 < (read wallPair 0 0).st.objects →
      (read (read wallPair 0 0).st 0 1).ok = true →
      (write (read wallPair 0 0).st 0 1).ok = false →
      (write (read wallPair 0 0).st 0 1).st = grant (read wallPair 0 0).st 0 1) ∧
    ((write (read wallPair 0 0).st 0 1).ok = true →
      (write (read wallPair 0 0).st 0 1).st = grant (read wallPair 0 0).st 0 1) := by
  obtain ⟨hA, hB, hC, hD, hE, hF⟩ := rejection_state_effects (read wallPair 0 0).st 0 1
  exact ⟨⟨by decide, by decide, by decide, by decide,
    hE (by decide) (by decide) (by decide) (by decide)⟩, hA, hB, hC, hD, hE, hF⟩

/-- Claim C4: for in-range `s`, `o`, `write(s,o)` first requires
`read(s,o)` to succeed, refusing without further checks (and without
mutation) if the read refuses; once the read succeeds, the write is refused
exactly when some object `i` has `granted(s,i)` true (in the pre-call
history), `owner(i) != owner(o)`, and `owner(i)` in the conflict set of
`owner(o)`; with no such taint it grants `(s,o)` and accepts. -/
theorem write_decision_rule (w : Wall) (s o : Nat) (hs : s < w.subjects)
    (ho : o < w.objects) :
    ((read w s o).ok = false → (write w s o).ok = false ∧ (write w s o).st = w) ∧
    ((read w s o).ok = true →
      ((write w s o).ok = false ↔
        ∃ i, i < w.objects ∧ w.accessMatrix s i = true ∧
          w.objectOwners i ≠ w.objectOwners o ∧
          w.conflictClasses (w.objectOwners o) (w.objectOwners i) = true) ∧
      ((write w s o).ok = true → (write w s o).st = grant w s o)) := by
  constructor
  · intro h
    rw [write_in_range_read_refused w s o hs ho h]
    exact ⟨rfl, rfl⟩
  · intro h
    rw [write_in_range_read_ok w s o hs ho h]
    constructor
    · rw [← writeScan_iff]
      split <;> simp_all
    · split
      · intro h2
        simp at h2
      · intro _
        rfl

/-- Witness for C4, at `wallScenario1` with `s = 0`, `o = 0`. -/
theorem write_decision_rule_witness :
    ((read wallScenario1 0 0).ok = false →
      (write wallScenario1 0 0).ok = false ∧ (write wallScenario1 0 0).st = wallScenario1) ∧
    ((read wallScenario1 0 0).ok = true →
      ((write wallScenario1 0 0).ok = false ↔
        ∃ i, i < wallScenario1.objects ∧ wallScenario1.accessMatrix 0 i = true ∧
          wallScenario1.objectOwners i ≠ wallScenario1.objectOwners 0 ∧
          wallScenario1.conflictClasses (wallScenario1.objectOwners 0)
            (wallScenario1.objectOwners i) = true) ∧
      ((write wallScenario1 0 0).ok = true →
        (write wallScenario1 0 0).st = grant wallScenario1 0 0)) :=
  write_decision_rule wallScenario1 0 0 (by decide) (by decide)

/-- Claim C6 counterexample: `addConflictClass(0,0)` on `wallSoloFirm` is
accepted (firm 0 is in range, no diagnostic) but is not a no-op in effect:
`read(0,0)` was accepted before the call and is refused after it, because
the read scan looks subject indices up in the firm-keyed conflict set. -/
theorem self_conflict_changes_read :
    0 < wallSoloFirm.firms ∧
    (addConflictClass wallSoloFirm 0 0).1 = false ∧
    (read wallSoloFirm 0 0).ok = true ∧
    (read wallSelfConflict 0 0).ok = false := by
  decide

/-- Claim C6 (amended): for an in-range firm `A`, `addConflictClass(A,A)` is
accepted and its only effect is inserting `A` into the conflict set of `A`:
counts, owners and the access matrix are unchanged, and the write taint scan
is unaffected at every subject and firm; but the insertion is not a no-op
for `read` decisions, which look subject indices up in the conflict set. -/
theorem self_conflict_effect (w : Wall) (A : Nat) (hA : A < w.firms) :
    (addConflictClass w A A).1 = false ∧
    (addConflictClass w A A).2.subjects = w.subjects ∧
    (addConflictClass w A A).2.objects = w.objects ∧
    (addConflictClass w A A).2.firms = w.firms ∧
    (addConflictClass w A A).2.accessMatrix = w.accessMatrix ∧
    (addConflictClass w A A).2.objectOwners = w.objectOwners ∧
    (∀ f i, (addConflictClass w A A).2.conflictClasses f i = true ↔
      (w.conflictClasses f i = true ∨ (f = A ∧ i = A))) ∧
    (∀ s f, writeScan (addConflictClass w A A).2 s f = writeScan w s f) := by
  have hr : ¬(w.firms ≤ A ∨ w.firms ≤ A) := by omega
  have key : addConflictClass w A A =
      (false, { w with conflictClasses := insertConflict (insertConflict w.conflictClasses A A) A A }) := by
    unfold addConflictClass
    rw [if_neg hr]
  rw [key]
  exact ⟨rfl, rfl, rfl, rfl, rfl, rfl,
    fun f i => insertConflict_self_mem w.conflictClasses A f i,
    fun s f => writeScan_insert_self w A s f⟩

/-- Witness for C6 (amended), at `wallSoloFirm` with `A = 0`. -/
theorem self_conflict_effect_witness :
    (addConflictClass wallSoloFirm 0 0).1 = false ∧
    (addConflictClass wallSoloFirm 0 0).2.subjects = wallSoloFirm.subjects ∧
    (addConflictClass wallSoloFirm 0 0).2.objects = wallSoloFirm.objects ∧
    (addConflictClass wallSoloFirm 0 0).2.firms = wallSoloFirm.firms ∧
    (addConflictClass wallSoloFirm 0 0).2.accessMatrix = wallSoloFirm.accessMatrix ∧
    (addConflictClass wallSoloFirm 0 0).2.objectOwners = wallSoloFirm.objectOwners ∧
    (∀ f i, (addConflictClass wallSoloFirm 0 0).2.conflictClasses f i = true ↔
      (wallSoloFirm.conflictClasses f i = true ∨ (f = 0 ∧ i = 0))) ∧
    (∀ s f, writeScan (addConflictClass wallSoloFirm 0 0).2 s f = writeScan wallSoloFirm s f) :=
  self_conflict_effect wallSoloFirm 0 (by decide)

/-- Claim C7: whenever `s >= subjectCount` or `o >= objectCount`, both
`read(s,o)` and `write(s,o)` return the refusing result with the
`std::cerr` diagnostic set and the state unchanged; for in-range arguments
the diagnostic is never set, so the out-of-range rejection is
distinguishable from a policy refusal. -/
theorem out_of_range_rejection (w : Wall) (s o : Nat) :
    (w.subjects ≤ s ∨ w.objects ≤ o →
      read w s o = ⟨false, true, w⟩ ∧ write w s o = ⟨false, true, w⟩) ∧
    (s < w.subjects → o < w.objects →
      (read w s o).diag = false ∧ (write w s o).diag = false) := by
  constructor
  · intro h
    exact ⟨read_out_of_range w s o h, write_out_of_range w s o h⟩
  · intro hs ho
    refine ⟨read_diag_in_range w s o hs ho, ?_⟩
    by_cases hok : (read w s o).ok = true
    · rw [write_in_range_read_ok w s o hs ho hok]
      split <;> rfl
    · have hok' : (read w s o).ok = false := by
        cases hh : (read w s o).ok
        · rfl
        · exact absurd hh hok
      rw [write_in_range_read_refused w s o hs ho hok']

/-- Witness for C7: Scenario 4, `read(99,0)` with 5 subjects. -/
theorem out_of_range_rejection_witness :
    ((Wall.init 5 5 5).subjects ≤ 99 ∨ (Wall.init 5 5 5).objects ≤ 0) ∧
    read (Wall.init 5 5 5) 99 0 = ⟨false, true, Wall.init 5 5 5⟩ ∧
    write (Wall.init 5 5 5) 99 0 = ⟨false, true, Wall.init 5 5 5⟩ :=
  ⟨Or.inl (by decide),
    (out_of_range_rejection (Wall.init 5 5 5) 99 0).1 (Or.inl (by decide))⟩

/-- Claim C8: `start` is idempotent and clears every access entry. -/
theorem start_idempotent_clears (w : Wall) :
    start (start w) = start w ∧ ∀ s o, (start w).accessMatrix s o = false :=
  ⟨rfl, fun _ _ => rfl⟩

/-- Claim C9: within the step relation generated by `read`, `write`,
`setObjectOwner` and `addConflictClass`, a true access entry stays true:
no operation other than `start` ever clears `granted(s,o)`. -/
theorem access_monotone (w w' : Wall) (h : Relation.ReflTransGen Step w w')
    (s o : Nat) (hg : w.accessMatrix s o = true) : w'.accessMatrix s o = true := by
  induction h with
  | refl => exact hg
  | tail _ hbc ih => exact step_access_monotone _ _ hbc s o ih

/-- Witness for C9: `wallSoloFirm` has `granted(0,0)` and a `read` step
preserves it. -/
theorem access_monotone_witness :
    wallSoloFirm.accessMatrix 0 0 = true ∧
    (read wallSoloFirm 0 0).st.accessMatrix 0 0 = true :=
  ⟨by decide,
    access_monotone wallSoloFirm (read wallSoloFirm 0 0).st
      (Relation.ReflTransGen.single (Step.ofRead wallSoloFirm 0 0)) 0 0 (by decide)⟩

/-- Claim C10: `read`, `write` and `start` never modify the ownership map or
the conflict relation, and `setObjectOwner` and `addConflictClass` never
modify the access matrix; moreover `setObjectOwner` leaves the conflict
relation alone and `addConflictClass` leaves the ownership map alone. -/
theorem frame_separation (w : Wall) (s o object firm firm1 firm2 : Nat) :
    (read w s o).st.objectOwners = w.objectOwners ∧
    (read w s o).st.conflictClasses = w.conflictClasses ∧
    (write w s o).st.objectOwners = w.objectOwners ∧
    (write w s o).st.conflictClasses = w.conflictClasses ∧
    (start w).objectOwners = w.objectOwners ∧
    (start w).conflictClasses = w.conflictClasses ∧
    (setObjectOwner w object firm).2.accessMatrix = w.accessMatrix ∧
    (setObjectOwner w object firm).2.conflictClasses = w.conflictClasses ∧
    (addConflictClass w firm1 firm2).2.accessMatrix = w.accessMatrix ∧
    (addConflictClass w firm1 firm2).2.objectOwners = w.objectOwners := by
  refine ⟨?_, ?_, ?_, ?_, rfl, rfl, ?_, ?_, ?_, ?_⟩
  · rcases read_st_total w s o with hst | hst <;> (rw [hst]; try rfl)
  · rcases read_st_total w s o with hst | hst <;> (rw [hst]; try rfl)
  · rcases write_st_total w s o with hst | hst <;> (rw [hst]; try rfl)
  · rcases write_st_total w s o with hst | hst <;> (rw [hst]; try rfl)
  · exact setObjectOwner_access w object firm
  · unfold setObjectOwner
    split <;> rfl
  · exact addConflictClass_access w firm1 firm2
  · unfold addConflictClass
    split <;> rfl

end ChineseWall
